import Mathlib

/-!
Shallow embedding of the conversion job submission / status-polling /
artifact-retrieval protocol of the buzzy-conversions repository.

The embedding covers:
- the Next.js API proxy routes (the "Proxy Gateway"): the status route
  src/app/api/status/[conversionId]/route.ts, its variant found in the
  repository (unnamed part_001), the download route
  src/app/api/download/[downloadId]/[filename]/route.ts, and the submit
  routes for excel-to-pdf, pdf-to-word, word-to-pdf and pdf-to-jpg;
- the client-side polling loops (the "Job Status Tracker") of the
  excel-to-pdf, pdf-to-jpg, powerpoint-to-pdf and pdf-to-powerpoint pages;
- the per-page client session state (file selection, validation, reset).

JavaScript numbers used for the cosmetic progress estimate are modelled as
exact rationals; JS string/undefined truthiness is modelled explicitly
(Option, with the empty string falsy where the source uses `||` or a
truthiness test).
-/

/-- A file extracted from a multipart form: name, size in bytes, MIME type. -/
structure UploadedFile where
  name : String
  size : Nat
  type : String
deriving DecidableEq

/-- Outcome of a `fetch` call to the Conversion Backend: either the promise
rejects (`thrown` carries the JS error message, e.g. containing
"ECONNREFUSED" when the connection is refused) or an HTTP response arrives
with a status code and a parsed body. -/
inductive FetchOutcome (β : Type) where
  | thrown (emsg : String)
  | response (status : Nat) (body : β)
deriving DecidableEq

/-- JS `response.ok`: status in the 200..299 range. -/
def httpOk (status : Nat) : Bool :=
  200 ≤ status && status ≤ 299

/-- JS `a || b` for a possibly-missing string: `undefined`, `null` and the
empty string are falsy and fall through to the default. -/
def jsOrStr (v : Option String) (d : String) : String :=
  match v with
  | none => d
  | some s => if s = "" then d else s

/-- JS truthiness of a possibly-missing string field. -/
def jsTruthyStr (v : Option String) : Bool :=
  match v with
  | none => false
  | some s => !(s = "")

/-- JS `haystack.includes(needle)`. -/
def strIncludes (haystack needle : String) : Bool :=
  decide (needle.toList.IsInfix haystack.toList)

/-- JS `s.endsWith(suf)`, modelled on the character list. -/
def strEndsWith (s suf : String) : Bool :=
  decide (suf.toList.IsSuffix s.toList)

/-- JS `s.toLowerCase()`, modelled on the character list. -/
def strToLower (s : String) : String :=
  ⟨s.toList.map Char.toLower⟩

/-- Metadata object attached to a status response (format-specific key/value
pairs; the routes only pass it through or default it to the empty object). -/
def Metadata : Type := List (String × String)

instance : DecidableEq Metadata := by
  unfold Metadata
  infer_instance

/-- The empty JS object used as the metadata default. -/
def emptyMetadata : Metadata := []

/-- Parsed JSON body of a 2xx backend status response, as destructured by
the status routes; every field may be absent. -/
structure StatusBody where
  conversion_id : Option String
  success : Option Bool
  status : Option String
  filename : Option String
  download_url : Option String
  error : Option String
  metadata : Option Metadata
  method : Option String
deriving DecidableEq

/-- The transformed status payload built by the status route
(src/app/api/status/[conversionId]/route.ts, lines 44-58). -/
structure TransformedResult where
  conversion_id : String
  success : Bool
  status : String
  filename : Option String
  download_url : Option String
  error : Option String
  metadata : Metadata
  method : Option String
deriving DecidableEq

/-- Body of a client-facing status response: either a normalized error
object (with an optional extra `status` field, used by the not-found
branch) or the transformed passthrough payload. -/
inductive StatusResponseBody where
  | errBody (error : String) (statusField : Option String)
  | okBody (t : TransformedResult)
deriving DecidableEq

/-- The transformation applied by the status route to a 2xx backend body
(src/app/api/status/[conversionId]/route.ts, lines 44-58): JS `||`
defaulting for conversion_id, success, status and metadata. -/
def transformStatus (conversionId : String) (result : StatusBody) :
    TransformedResult :=
  { conversion_id := jsOrStr result.conversion_id conversionId
    success := result.success == some true
    status := jsOrStr result.status
      (if result.success == some true then "completed" else "processing")
    filename := result.filename
    download_url := result.download_url
    error := result.error
    metadata := result.metadata.getD emptyMetadata
    method := result.method }

/-- GET handler of src/app/api/status/[conversionId]/route.ts: rejects an
empty id with 400, maps a fetch rejection to a 500 generic error (this
route's catch block has no ECONNREFUSED branch), normalizes a backend 404
to a distinct not-found body, echoes other non-2xx codes as
"Status check failed: <code>", and transforms a 2xx JSON body. -/
def statusGET (conversionId : String) (backend : FetchOutcome StatusBody) :
    Nat × StatusResponseBody :=
  if conversionId = "" then
    (400, .errBody "Conversion ID is required" none)
  else
    match backend with
    | .thrown _ =>
        (500, .errBody "Internal server error during status check" none)
    | .response st body =>
        if httpOk st then
          (200, .okBody (transformStatus conversionId body))
        else if st = 404 then
          (404, .errBody "Conversion not found" (some "not_found"))
        else
          (st, .errBody (s!"Status check failed: {st}") none)

/-- GET handler of the status route variant (src/unnamed/part_001): same
shape, but its catch block maps an error message containing ECONNREFUSED to
a 503 service-unavailable response, and its 2xx branch passes the backend
body through untransformed. -/
inductive AltStatusBody where
  | errB (error : String)
  | passthrough (body : StatusBody)
deriving DecidableEq

def statusGETalt (conversionId : String)
    (backend : FetchOutcome StatusBody) : Nat × AltStatusBody :=
  if conversionId = "" then
    (400, .errB "Conversion ID is required")
  else
    match backend with
    | .thrown emsg =>
        if strIncludes emsg "ECONNREFUSED" then
          (503, .errB "Conversion service is not available. Please ensure the backend server is running.")
        else
          (500, .errB "Internal server error during status check")
    | .response st body =>
        if httpOk st then
          (200, .passthrough body)
        else if st = 404 then
          (404, .errB "Conversion not found")
        else
          (st, .errB (s!"Status check error: {st}"))

/-- Extension → MIME table of the download route
(src/app/api/download/[downloadId]/[filename]/route.ts, lines 37-52). -/
def contentTypeFor (filename : String) : String :=
  if strEndsWith filename ".pdf" then "application/pdf"
  else if strEndsWith filename ".docx" then
    "application/vnd.openxmlformats-officedocument.wordprocessingml.document"
  else if strEndsWith filename ".pptx" then
    "application/vnd.openxmlformats-officedocument.presentationml.presentation"
  else if strEndsWith filename ".xlsx" then
    "application/vnd.openxmlformats-officedocument.spreadsheetml.sheet"
  else if strEndsWith filename ".jpg" || strEndsWith filename ".jpeg" then
    "image/jpeg"
  else if strEndsWith filename ".zip" then "application/zip"
  else "application/octet-stream"

/-- Body of a client-facing download response: a streamed file with derived
Content-Type and attachment disposition, or a normalized JSON error. -/
inductive DownloadBody where
  | fileStream (contentType : String) (disposition : String)
  | errJson (error : String)
deriving DecidableEq

/-- GET handler of src/app/api/download/[downloadId]/[filename]/route.ts:
streams a 2xx backend response with the extension-derived content type,
normalizes a backend 404 to "File not found or has expired", echoes other
codes, and maps an ECONNREFUSED fetch rejection to 503. -/
def downloadGET (filename : String) (backend : FetchOutcome Unit) :
    Nat × DownloadBody :=
  match backend with
  | .thrown emsg =>
      if strIncludes emsg "ECONNREFUSED" then
        (503, .errJson "Download service is not available. Please ensure the backend server is running.")
      else
        (500, .errJson "Internal server error during download")
  | .response st _ =>
      if httpOk st then
        (200, .fileStream (contentTypeFor filename)
          (s!"attachment; filename=\"{filename}\""))
      else if st = 404 then
        (404, .errJson "File not found or has expired")
      else
        (st, .errJson (s!"Download error: {st}"))

/-- Parsed JSON body of a backend submit response, as far as the submit
routes destructure it. -/
structure BackendBody where
  success : Bool
  error : Option String
deriving DecidableEq

/-- Result of a submit route: HTTP status returned to the client, the error
message (if any), and whether a forward request to the Conversion Backend
was issued at all. -/
structure SubmitResult where
  httpStatus : Nat
  error : Option String
  backendContacted : Bool
deriving DecidableEq

/-- POST handler of src/app/api/convert/excel-to-pdf/route.ts: forwards the
form data unvalidated; a non-2xx backend status is thrown and caught, so it
and any fetch rejection alike become a 500 response carrying the error
message (there is no ECONNREFUSED / 503 branch). -/
def excelToPdfPOST (backend : FetchOutcome BackendBody) : SubmitResult :=
  match backend with
  | .thrown emsg => ⟨500, some emsg, true⟩
  | .response st _ =>
      if httpOk st then ⟨200, none, true⟩
      else ⟨500, some (s!"Backend responded with status: {st}"), true⟩

/-- POST handler of src/app/api/convert/pdf-to-word/route.ts: forwards the
form data without inspecting the file at all and mirrors the backend's
status and body; the catch block returns a generic 500. The file argument
is listed to record that the route ignores it. -/
def pdfToWordPOST (_file : Option UploadedFile)
    (backend : FetchOutcome BackendBody) : SubmitResult :=
  match backend with
  | .thrown _ => ⟨500, some "Internal server error", true⟩
  | .response st body => ⟨st, body.error, true⟩

/-- POST handler of the word-to-pdf route (src/unnamed/part_003, first
handler): requires a file, requires a .doc/.docx lowercase extension, and
only then forwards to the backend; on backend non-ok the backend error is
surfaced (defaulted via JS truthiness), the catch returns a generic 500. -/
def wordToPdfPOST (file : Option UploadedFile)
    (backend : FetchOutcome BackendBody) : SubmitResult :=
  match file with
  | none => ⟨400, some "No file provided", false⟩
  | some f =>
      if !(strEndsWith (strToLower f.name) ".docx"
          || strEndsWith (strToLower f.name) ".doc") then
        ⟨400, some "File must be a Word document (.doc or .docx)", false⟩
      else
        match backend with
        | .thrown _ => ⟨500, some "Internal server error", true⟩
        | .response st body =>
            if httpOk st then ⟨200, none, true⟩
            else ⟨st, some (jsOrStr body.error "Conversion failed"), true⟩

/-- POST handler of the pdf-to-jpg route (src/unnamed/part_003, second
handler): requires a file and MIME type application/pdf before forwarding;
the backend JSON body is returned with a 200 status regardless of the
backend's own status code; the catch returns a generic 500. -/
def pdfToJpgPOST (file : Option UploadedFile)
    (backend : FetchOutcome BackendBody) : SubmitResult :=
  match file with
  | none => ⟨400, some "No file provided", false⟩
  | some f =>
      if !(f.type = "application/pdf") then
        ⟨400, some "File must be a PDF", false⟩
      else
        match backend with
        | .thrown _ =>
            ⟨500, some "Internal server error during conversion", true⟩
        | .response _ body => ⟨200, body.error, true⟩

/-- Terminal/observable phase of a client polling loop. `stalled` records
the branch where a poll handler matches no status case: no further poll is
scheduled but no error state is entered either (isConverting stays true). -/
inductive TPhase where
  | running
  | succeeded
  | failed (msg : String)
  | timedOut (msg : String)
  | stalled
deriving DecidableEq

/-- State of a polling loop: the attempt counter, the displayed progress
estimate, and the phase. Only `running` schedules a further poll. -/
structure TState where
  attempts : Nat
  progress : ℚ
  phase : TPhase
deriving DecidableEq

/-- A polling loop schedules another poll (setTimeout(poll, ...)) exactly
when it is still in the running phase. -/
def schedulesPoll (s : TState) : Bool :=
  s.phase = TPhase.running

/-- Status JSON as destructured by the polling loops (result.status,
result.success, result.error). -/
structure PollResult where
  status : Option String
  success : Bool
  error : Option String
deriving DecidableEq

/-- Outcome of one status poll: the fetch either resolves to a parsed JSON
body or rejects (network/transport failure). -/
inductive PollOutcome where
  | ok (r : PollResult)
  | transportError
deriving DecidableEq

/-- The gateway's processing status body as seen by a poll. -/
def processingResult : PollResult := ⟨some "processing", false, none⟩

/-- The parsed body of the status route's normalized 404 response
({error: "Conversion not found", status: "not_found"}), as a poll sees it. -/
def notFoundResult : PollResult :=
  ⟨some "not_found", false, some "Conversion not found"⟩

/-- One iteration of pollConversionStatus in
src/app/tools/excel-to-pdf/page.tsx (lines 96-132): completed/failed are
terminal; on "processing" the progress is set from the pre-increment
attempt count, the counter is bumped and a next poll is scheduled only
below the budget of 60, otherwise the loop stops with the timeout toast; a
status matching no branch silently stops polling; a thrown fetch stops
immediately with the generic status-check toast. Non-running states absorb. -/
def excelPollStep (s : TState) (o : PollOutcome) : TState :=
  match s.phase with
  | .running =>
    match o with
    | .ok r =>
        if r.status == some "completed" && r.success then
          { s with progress := 100, phase := .succeeded }
        else if r.status == some "failed" then
          let errText := jsOrStr r.error "undefined"
          { s with phase := .failed (s!"Conversion failed: {errText}") }
        else if r.status == some "processing" then
          let progressValue := min 90 ((s.attempts : ℚ) / 60 * 90)
          let attempts := s.attempts + 1
          if attempts < 60 then
            { attempts := attempts, progress := progressValue,
              phase := .running }
          else
            { attempts := attempts, progress := progressValue,
              phase := .timedOut "Conversion timed out. Please try again." }
        else
          { s with phase := .stalled }
    | .transportError =>
        { s with phase := .failed "Error checking conversion status" }
  | _ => s

/-- One iteration of pollConversionStatus in
src/app/tools/pdf-to-jpg/page.tsx (lines 84-127): the attempt counter is
incremented on entry; completed is terminal; a "failed" status or any
truthy error field is terminal failed with progress reset; otherwise the
loop continues below the budget of 60 with progress min(90, attempts*3) and
times out at the budget; a thrown fetch is retried while below the budget
and only fails once the budget is exhausted. Non-running states absorb. -/
def jpgPollStep (s : TState) (o : PollOutcome) : TState :=
  match s.phase with
  | .running =>
    let attempts := s.attempts + 1
    match o with
    | .ok r =>
        if r.status == some "completed" && r.success then
          { attempts := attempts, progress := 100, phase := .succeeded }
        else if r.status == some "failed" || jsTruthyStr r.error then
          { attempts := attempts, progress := 0,
            phase := .failed (jsOrStr r.error "Conversion failed") }
        else if attempts < 60 then
          { attempts := attempts, progress := min 90 ((attempts : ℚ) * 3),
            phase := .running }
        else
          { attempts := attempts, progress := 0,
            phase := .timedOut "Conversion timeout - please try again" }
    | .transportError =>
        if attempts < 60 then
          { s with attempts := attempts }
        else
          { attempts := attempts, progress := 0,
            phase := .failed "Failed to check conversion status" }
  | _ => s

/-- One iteration of pollConversionStatus of the powerpoint-to-pdf page
(src/unnamed/part_005, lines 70-111): same structure as the excel-to-pdf
loop — completed/failed terminal, "processing" bumps the counter with
progress min(90, attempts/60*90) and times out at 60 attempts with the
timeout toast, an unmatched status silently stops polling, and a thrown
fetch stops immediately with the generic toast. -/
def pptPollStep (s : TState) (o : PollOutcome) : TState :=
  match s.phase with
  | .running =>
    match o with
    | .ok r =>
        if r.status == some "completed" && r.success then
          { s with progress := 100, phase := .succeeded }
        else if r.status == some "failed" then
          let errText := jsOrStr r.error "undefined"
          { s with phase := .failed (s!"Conversion failed: {errText}") }
        else if r.status == some "processing" then
          let progressValue := min 90 ((s.attempts : ℚ) / 60 * 90)
          let attempts := s.attempts + 1
          if attempts < 60 then
            { attempts := attempts, progress := progressValue,
              phase := .running }
          else
            { attempts := attempts, progress := progressValue,
              phase := .timedOut "Conversion timed out. Please try again." }
        else
          { s with phase := .stalled }
    | .transportError =>
        { s with phase := .failed "Error checking conversion status" }
  | _ => s

/-- One iteration of pollStatus of the pdf-to-powerpoint page
(src/unnamed/part_005, lines 505-556): completed and "failed" are terminal;
ANY other status (including the not-found body) keeps polling while the
attempt counter is below 60, with progress min(90, attempts/60*80+10); at
the budget the file is marked error with the timeout message; a thrown
fetch marks the file error immediately. -/
def p2pPollStep (s : TState) (o : PollOutcome) : TState :=
  match s.phase with
  | .running =>
    match o with
    | .ok r =>
        if r.status == some "completed" && r.success then
          { s with progress := 100, phase := .succeeded }
        else if r.status == some "failed" then
          { s with phase := .failed (jsOrStr r.error "Conversion failed") }
        else if s.attempts < 60 then
          { attempts := s.attempts + 1,
            progress := min 90 ((s.attempts : ℚ) / 60 * 80 + 10),
            phase := .running }
        else
          { s with phase := .failed "Conversion timeout. Please try again." }
    | .transportError =>
        { s with phase := .failed "Failed to check conversion status" }
  | _ => s

/-- Folding a polling step over a sequence of observed poll outcomes. -/
def runTracker (step : TState → PollOutcome → TState) (s : TState)
    (os : List PollOutcome) : TState :=
  os.foldl step s

/-- Initial tracker state of the excel-to-pdf page when polling starts
(progress was set to 30 after a successful submit). -/
def excelInitT : TState := ⟨0, 30, .running⟩

/-- Initial tracker state of the pdf-to-jpg page (progress 20 after
submit). -/
def jpgInitT : TState := ⟨0, 20, .running⟩

/-- Initial tracker state of the powerpoint-to-pdf page (progress 10 after
submit). -/
def pptInitT : TState := ⟨0, 10, .running⟩

/-- Initial per-file tracker state of the pdf-to-powerpoint page (progress
0 when converting starts). -/
def p2pInitT : TState := ⟨0, 0, .running⟩

/-- Minimal conversion-result record kept in client session state (only the
fields the reset/validation logic touches). -/
structure ConvResult where
  success : Bool
  error : Option String
deriving DecidableEq

/-- Client session state of the pdf-to-word page
(src/app/tools/pdf-to-word/page.tsx): selected file, explicit
conversionStatus string, error message, download info, method, size. -/
structure PWSession where
  file : Option UploadedFile
  conversionStatus : String
  errorMessage : String
  downloadUrl : Option String
  downloadFilename : String
  conversionMethod : Option String
  fileSize : Nat
deriving DecidableEq

/-- handleFileSelect of the pdf-to-word page (lines 23-36): a PDF MIME type
stores the file and clears prior error/result state; any other type sets
the validation error AND clears the selected file (setFile(null)). -/
def handleFileSelectW (s : PWSession) (f : UploadedFile) : PWSession :=
  if f.type = "application/pdf" then
    { s with
      file := some f
      conversionStatus := "idle"
      errorMessage := ""
      downloadUrl := none
      conversionMethod := none
      fileSize := f.size }
  else
    { s with
      errorMessage := "Please select a valid PDF file."
      file := none
      fileSize := 0 }

/-- The guard of handleConvert of the pdf-to-word page (lines 58-62): with
no file selected it only sets an error message and returns; the returned
Bool records whether the fetch to /api/convert/pdf-to-word is issued. -/
def handleConvertW (s : PWSession) : PWSession × Bool :=
  match s.file with
  | none => ({ s with errorMessage := "Please select a PDF file first." }, false)
  | some _ => (s, true)

/-- Client session state of the excel-to-pdf page
(src/app/tools/excel-to-pdf/page.tsx). -/
structure ExSession where
  file : Option UploadedFile
  isConverting : Bool
  progress : ℚ
  conversionResult : Option ConvResult
  error : Option String
deriving DecidableEq

/-- File allow-list test of the excel-to-pdf page: Excel MIME types or a
lowercase .xlsx/.xls extension. -/
def isExcelFile (f : UploadedFile) : Bool :=
  f.type = "application/vnd.openxmlformats-officedocument.spreadsheetml.sheet"
    || f.type = "application/vnd.ms-excel"
    || strEndsWith (strToLower f.name) ".xlsx"
    || strEndsWith (strToLower f.name) ".xls"

/-- handleFileInputChange of the excel-to-pdf page (lines 52-69): a valid
Excel file is stored and prior error/result cleared; an invalid file only
sets the validation error, leaving the previously selected file in place. -/
def handleFileInputChangeE (s : ExSession) (f : UploadedFile) : ExSession :=
  if isExcelFile f then
    { s with file := some f, error := none, conversionResult := none }
  else
    { s with error := some "Please select a valid Excel file (.xlsx or .xls)" }

/-- The guard of handleConvert of the excel-to-pdf page (lines 135-139):
without a selected file no fetch is issued; the Bool records whether the
fetch to /api/convert/excel-to-pdf is issued. -/
def handleConvertE (s : ExSession) : ExSession × Bool :=
  match s.file with
  | none => (s, false)
  | some _ =>
      ({ s with
          isConverting := true
          progress := 10
          conversionResult := none
          error := none }, true)

/-- resetForm of the excel-to-pdf page (lines 191-199): clears the file,
converting flag, result, progress and error. -/
def resetForm (_s : ExSession) : ExSession :=
  ⟨none, false, 0, none, none⟩

/-- Client session state of the pdf-to-excel page embedded in
src/app/api/convert/pdf-to-word/route.ts (file, isConverting,
conversionResult, progress). -/
structure PXSession where
  file : Option UploadedFile
  isConverting : Bool
  conversionResult : Option ConvResult
  progress : ℚ
deriving DecidableEq

/-- resetConverter of that page (lines 161-166): clears file, converting
flag, result and progress. -/
def resetConverter (_s : PXSession) : PXSession :=
  ⟨none, false, none, 0⟩

/-- Client session state of the pdf-to-jpg page
(src/app/tools/pdf-to-jpg/page.tsx). -/
structure JpgSession where
  file : Option UploadedFile
  isConverting : Bool
  conversionProgress : ℚ
  conversionResult : Option ConvResult
  error : Option String
deriving DecidableEq

/-- removeFile of the pdf-to-jpg page (lines 76-83): clears the file,
result and error but leaves isConverting and conversionProgress untouched. -/
def removeFile (s : JpgSession) : JpgSession :=
  { s with file := none, conversionResult := none, error := none }

/-- A status body with every optional field absent. -/
def emptyStatusBody : StatusBody :=
  ⟨none, none, none, none, none, none, none, none⟩

/-- A sample plain-text file, invalid for every conversion kind modelled. -/
def txtFile : UploadedFile := ⟨"notes.txt", 1000, "text/plain"⟩

/-- A sample valid PDF file. -/
def pdfFile : UploadedFile := ⟨"report.pdf", 2000000, "application/pdf"⟩

/-- The JS error message raised when the backend connection is refused. -/
def refusedMsg : String := "connect ECONNREFUSED 127.0.0.1:8000"

/-- Claim C1 (corrected), counterexample: the excel-to-pdf submit route
returns HTTP 500, not 503, when the fetch to the backend rejects with a
connection-refused error, contradicting the claim that every Gateway
operation maps an unreachable backend to 503. -/
theorem excel_submit_connection_refused_is_500 :
    excelToPdfPOST (.thrown refusedMsg) = ⟨500, some refusedMsg, true⟩ ∧
    strIncludes refusedMsg "ECONNREFUSED" = true ∧
    (excelToPdfPOST (.thrown refusedMsg)).httpStatus ≠ 503 := by
  refine ⟨rfl, by decide, by decide⟩

/-- Claim C1 (corrected), amended: only the download route and the
status-route variant map a connection-refused fetch rejection to a 503
service-unavailable response; the primary status route and the submit
routes (excel-to-pdf, pdf-to-word) return a 500 with a generic message for
the same failure. -/
theorem connection_refused_mapping_by_route (e fn cid : String)
    (f : Option UploadedFile)
    (he : strIncludes e "ECONNREFUSED" = true) (hc : cid ≠ "") :
    downloadGET fn (.thrown e) =
      (503, .errJson "Download service is not available. Please ensure the backend server is running.") ∧
    statusGETalt cid (.thrown e) =
      (503, .errB "Conversion service is not available. Please ensure the backend server is running.") ∧
    statusGET cid (.thrown e) =
      (500, .errBody "Internal server error during status check" none) ∧
    (excelToPdfPOST (.thrown e)).httpStatus = 500 ∧
    (pdfToWordPOST f (.thrown e)).httpStatus = 500 := by
  refine ⟨?_, ?_, ?_, rfl, rfl⟩
  · simp [downloadGET, he]
  · simp [statusGETalt, hc, he]
  · simp [statusGET, hc]

/-- Claim C1 witness: the amended mapping at the concrete
connection-refused message. -/
theorem connection_refused_mapping_witness :
    statusGET "abc123" (.thrown refusedMsg) =
      (500, .errBody "Internal server error during status check" none) :=
  (connection_refused_mapping_by_route refusedMsg "out.pdf" "abc123" none
    (by decide) (by decide)).2.2.1

/-- Claim C6 (confirmed): a backend 404 on a status check is normalized by
the status route to a distinct 404 not-found body (with its own
status: "not_found" field), while every other non-2xx backend code gets the
generic "Status check failed: <code>" payload. -/
theorem status_404_normalized_distinct (cid : String) (st : Nat)
    (b : StatusBody) (hc : cid ≠ "") :
    statusGET cid (.response 404 b) =
      (404, .errBody "Conversion not found" (some "not_found")) ∧
    (httpOk st = false → st ≠ 404 →
      statusGET cid (.response st b) =
        (st, .errBody (s!"Status check failed: {st}") none)) ∧
    statusGETalt cid (.response 404 b) =
      (404, .errB "Conversion not found") := by
  refine ⟨?_, ?_, ?_⟩
  · simp [statusGET, hc, httpOk]
  · intro hok h404
    simp [statusGET, hc, hok, h404]
  · simp [statusGETalt, hc, httpOk]

/-- Claim C6 witness: the 404 normalization and the generic 502 echo at
concrete inputs. -/
theorem status_404_normalized_witness :
    statusGET "abc123" (.response 502 emptyStatusBody) =
      (502, .errBody "Status check failed: 502" none) :=
  (status_404_normalized_distinct "abc123" 502 emptyStatusBody
    (by decide)).2.1 (by decide) (by decide)

/-- Claim C10 (confirmed): on a 2xx backend status body the route returns
the transformed payload, whose defaults are deterministic: a missing
success becomes false, a missing status becomes "completed" exactly when
success is truthy and "processing" otherwise, a missing conversion_id is
replaced by the requested id, and missing metadata becomes the empty
object. -/
theorem status_transform_defaults (cid : String) (body : StatusBody)
    (hc : cid ≠ "") :
    statusGET cid (.response 200 body) =
      (200, .okBody (transformStatus cid body)) ∧
    (body.success = none → (transformStatus cid body).success = false) ∧
    (body.status = none → body.success = some true →
      (transformStatus cid body).status = "completed") ∧
    (body.status = none → body.success ≠ some true →
      (transformStatus cid body).status = "processing") ∧
    (body.conversion_id = none →
      (transformStatus cid body).conversion_id = cid) ∧
    (body.metadata = none →
      (transformStatus cid body).metadata = emptyMetadata) := by
  refine ⟨by simp [statusGET, hc, httpOk], ?_, ?_, ?_, ?_, ?_⟩
  · intro h
    simp [transformStatus, h]
  · intro h hs
    simp [transformStatus, h, hs, jsOrStr]
  · intro h hs
    simp only [transformStatus, h, jsOrStr]
    simp [hs]
  · intro h
    simp [transformStatus, h, jsOrStr]
  · intro h
    simp [transformStatus, h, emptyMetadata]

/-- Claim C10 witness: the transform's defaults on the all-missing body. -/
theorem status_transform_defaults_witness :
    (transformStatus "abc123" emptyStatusBody).success = false :=
  (status_transform_defaults "abc123" emptyStatusBody (by decide)).2.1 rfl

/-- Claim C2 (confirmed): when the 60-poll budget is exhausted while every
observed status is "processing", each modelled polling loop reaches a
terminal state carrying its timeout-specific message (the excel-to-pdf and
powerpoint-to-pdf toasts, the pdf-to-jpg error, the pdf-to-powerpoint
per-file error), that state schedules no further poll, and it absorbs any
later outcomes. -/
theorem poll_budget_exhaustion_times_out :
    (runTracker excelPollStep excelInitT
        (List.replicate 60 (.ok processingResult))).phase =
      .timedOut "Conversion timed out. Please try again." ∧
    (runTracker pptPollStep pptInitT
        (List.replicate 60 (.ok processingResult))).phase =
      .timedOut "Conversion timed out. Please try again." ∧
    (runTracker jpgPollStep jpgInitT
        (List.replicate 60 (.ok processingResult))).phase =
      .timedOut "Conversion timeout - please try again" ∧
    (runTracker p2pPollStep p2pInitT
        (List.replicate 61 (.ok processingResult))).phase =
      .failed "Conversion timeout. Please try again." ∧
    (∀ (a : Nat) (p : ℚ) (m : String), schedulesPoll ⟨a, p, .timedOut m⟩ = false) ∧
    (∀ (a : Nat) (p : ℚ) (m : String), schedulesPoll ⟨a, p, .failed m⟩ = false) ∧
    (∀ (a : Nat) (p : ℚ) (m : String) (os : List PollOutcome),
      runTracker excelPollStep ⟨a, p, .timedOut m⟩ os = ⟨a, p, .timedOut m⟩) ∧
    (∀ (a : Nat) (p : ℚ) (m : String) (os : List PollOutcome),
      runTracker pptPollStep ⟨a, p, .timedOut m⟩ os = ⟨a, p, .timedOut m⟩) ∧
    (∀ (a : Nat) (p : ℚ) (m : String) (os : List PollOutcome),
      runTracker jpgPollStep ⟨a, p, .timedOut m⟩ os = ⟨a, p, .timedOut m⟩) ∧
    (∀ (a : Nat) (p : ℚ) (m : String) (os : List PollOutcome),
      runTracker p2pPollStep ⟨a, p, .failed m⟩ os = ⟨a, p, .failed m⟩) := by
  refine ⟨rfl, rfl, rfl, rfl, fun a p m => rfl, fun a p m => rfl, ?_, ?_, ?_, ?_⟩
  all_goals
    intro a p m os
    induction os with
    | nil => rfl
    | cons o os ih => exact ih

/-- Claim C3 (corrected), counterexample: on the status route's normalized
not-found body the pdf-to-powerpoint polling loop does NOT reach a terminal
failed state — it stays running and schedules another poll, contradicting
the claim that every Tracker treats the 404 body as terminal. -/
theorem p2p_keeps_polling_after_not_found :
    (p2pPollStep p2pInitT (.ok notFoundResult)).phase = .running ∧
    schedulesPoll (p2pPollStep p2pInitT (.ok notFoundResult)) = true ∧
    (p2pPollStep p2pInitT (.ok notFoundResult)).attempts = 1 := by
  exact ⟨rfl, rfl, rfl⟩

/-- Claim C3 (corrected), amended: the loops diverge on the normalized
not-found body. Only the pdf-to-jpg loop (whose error-field test catches
it) moves to terminal failed and stops; the excel-to-pdf and
powerpoint-to-pdf loops stop scheduling polls but stall without entering a
failed state; the pdf-to-powerpoint loop keeps scheduling polls while its
attempt budget remains. -/
theorem not_found_poll_handling_by_loop (a : Nat) (p : ℚ) :
    jpgPollStep ⟨a, p, .running⟩ (.ok notFoundResult) =
      ⟨a + 1, 0, .failed "Conversion not found"⟩ ∧
    schedulesPoll (jpgPollStep ⟨a, p, .running⟩ (.ok notFoundResult)) = false ∧
    (excelPollStep ⟨a, p, .running⟩ (.ok notFoundResult)).phase = .stalled ∧
    schedulesPoll (excelPollStep ⟨a, p, .running⟩ (.ok notFoundResult)) = false ∧
    (pptPollStep ⟨a, p, .running⟩ (.ok notFoundResult)).phase = .stalled ∧
    (a < 60 →
      (p2pPollStep ⟨a, p, .running⟩ (.ok notFoundResult)).phase = .running) := by
  refine ⟨rfl, rfl, rfl, rfl, rfl, ?_⟩
  intro h
  simp [p2pPollStep, notFoundResult, h]

/-- Claim C3 witness: the amended behaviour at a concrete loop state. -/
theorem not_found_poll_handling_witness :
    (p2pPollStep ⟨5, 0, .running⟩ (.ok notFoundResult)).phase = .running :=
  (not_found_poll_handling_by_loop 5 0).2.2.2.2.2 (by decide)

/-- Claim C5 (corrected), counterexample: on the very first poll of the
excel-to-pdf loop (attempt budget untouched), a transport error moves the
session immediately to a terminal failed state instead of retrying on the
next tick. -/
theorem excel_poll_transport_error_fails_immediately :
    excelInitT.attempts = 0 ∧
    (excelPollStep excelInitT .transportError).phase =
      .failed "Error checking conversion status" ∧
    schedulesPoll (excelPollStep excelInitT .transportError) = false := by
  exact ⟨rfl, rfl, rfl⟩

/-- Claim C5 (corrected), amended: only the pdf-to-jpg loop tolerates
transport errors — it retries on the next tick while the incremented
attempt count is below the budget and fails only once the budget is
exhausted; the excel-to-pdf, powerpoint-to-pdf and pdf-to-powerpoint loops
move to terminal failed on the first thrown poll. -/
theorem transport_error_handling_by_loop (a : Nat) (p : ℚ) :
    (a + 1 < 60 →
      jpgPollStep ⟨a, p, .running⟩ .transportError = ⟨a + 1, p, .running⟩) ∧
    (¬ a + 1 < 60 →
      (jpgPollStep ⟨a, p, .running⟩ .transportError).phase =
        .failed "Failed to check conversion status") ∧
    (excelPollStep ⟨a, p, .running⟩ .transportError).phase =
      .failed "Error checking conversion status" ∧
    (pptPollStep ⟨a, p, .running⟩ .transportError).phase =
      .failed "Error checking conversion status" ∧
    (p2pPollStep ⟨a, p, .running⟩ .transportError).phase =
      .failed "Failed to check conversion status" := by
  refine ⟨?_, ?_, rfl, rfl, rfl⟩
  · intro h
    simp [jpgPollStep, h]
  · intro h
    simp [jpgPollStep, h]

/-- Claim C5 witness: the pdf-to-jpg retry at a concrete state below the
budget. -/
theorem transport_error_handling_witness :
    jpgPollStep ⟨3, 20, .running⟩ .transportError = ⟨4, 20, .running⟩ :=
  (transport_error_handling_by_loop 3 20).1 (by decide)

/-- Claim C4 (corrected), counterexample: the pdf-to-word submit route
performs no validation at all — a plain-text file is forwarded to the
Conversion Backend and the backend's answer is returned, contradicting the
claim that every submit checks type and size and never contacts the
backend for a failing file. -/
theorem pdf_to_word_submit_forwards_invalid_file :
    (pdfToWordPOST (some txtFile) (.response 200 ⟨true, none⟩)).backendContacted
      = true ∧
    pdfToWordPOST (some txtFile) (.response 200 ⟨true, none⟩) =
      ⟨200, none, true⟩ := by
  exact ⟨rfl, rfl⟩

/-- Claim C4 (corrected), amended: the word-to-pdf and pdf-to-jpg submit
routes validate file presence and extension/MIME before forwarding and
reject failures with a 400 without contacting the backend; no submit route
checks the file size (a validly named file of any size is forwarded); and
the pdf-to-word and excel-to-pdf routes forward without any validation. -/
theorem submit_validation_by_route (f : UploadedFile)
    (g : Option UploadedFile) (b : FetchOutcome BackendBody) :
    ((strEndsWith (strToLower f.name) ".docx"
        || strEndsWith (strToLower f.name) ".doc") = false →
      wordToPdfPOST (some f) b =
        ⟨400, some "File must be a Word document (.doc or .docx)", false⟩) ∧
    (f.type ≠ "application/pdf" →
      pdfToJpgPOST (some f) b = ⟨400, some "File must be a PDF", false⟩) ∧
    wordToPdfPOST none b = ⟨400, some "No file provided", false⟩ ∧
    pdfToJpgPOST none b = ⟨400, some "No file provided", false⟩ ∧
    (strEndsWith (strToLower f.name) ".docx" = true →
      (wordToPdfPOST (some f) b).backendContacted = true) ∧
    (pdfToWordPOST g b).backendContacted = true ∧
    (excelToPdfPOST b).backendContacted = true := by
  refine ⟨?_, ?_, rfl, rfl, ?_, ?_, ?_⟩
  · intro h
    simp [wordToPdfPOST, h]
  · intro h
    simp [pdfToJpgPOST, h]
  · intro h
    cases b with
    | thrown e => simp [wordToPdfPOST, h]
    | response st body =>
        simp only [wordToPdfPOST, h, Bool.true_or, Bool.not_true,
          Bool.false_eq_true, if_false]
        split <;> rfl
  · cases b <;> rfl
  · cases b with
    | thrown e => rfl
    | response st body =>
        simp only [excelToPdfPOST]
        split <;> rfl

/-- Claim C4 witness: a 100 GB spreadsheet-named Word file passes the only
check the word-to-pdf route performs and is forwarded. -/
theorem submit_validation_witness :
    (wordToPdfPOST (some ⟨"huge.docx", 100000000000, "application/msword"⟩)
      (.response 200 ⟨true, none⟩)).backendContacted = true :=
  (submit_validation_by_route ⟨"huge.docx", 100000000000, "application/msword"⟩
    none (.response 200 ⟨true, none⟩)).2.2.2.2.1 (by decide)

/-- A pdf-to-word session that currently has a valid PDF selected. -/
def pwWithPdf : PWSession := ⟨some pdfFile, "idle", "", none, "", none, 2000000⟩

/-- Claim C7 (corrected), counterexample: selecting a .txt file on the
pdf-to-word page while a PDF is already selected does not leave the session
in the fileSelected phase — handleFileSelect clears the selected file
(setFile(null)), so no file remains selected. -/
theorem pdf_to_word_invalid_selection_clears_file :
    (handleFileSelectW pwWithPdf txtFile).file = none ∧
    pwWithPdf.file = some pdfFile ∧
    (handleFileSelectW pwWithPdf txtFile).errorMessage =
      "Please select a valid PDF file." := by
  exact ⟨rfl, rfl, rfl⟩

/-- Claim C7 (corrected), amended: a file failing local validation sets the
tool's validation error message and submission is never attempted — the
convert handler issues no network call afterwards; but the pages disagree
on the remaining phase: pdf-to-word clears the selected file (leaving no
file selected), while excel-to-pdf keeps the previously selected file. -/
theorem invalid_selection_no_submission (s : PWSession) (t : ExSession)
    (f : UploadedFile) :
    (f.type ≠ "application/pdf" →
      (handleFileSelectW s f).errorMessage = "Please select a valid PDF file." ∧
      (handleFileSelectW s f).file = none ∧
      (handleConvertW (handleFileSelectW s f)).2 = false) ∧
    (isExcelFile f = false →
      (handleFileInputChangeE t f).error =
        some "Please select a valid Excel file (.xlsx or .xls)" ∧
      (handleFileInputChangeE t f).file = t.file ∧
      (t.file = none → (handleConvertE (handleFileInputChangeE t f)).2 = false)) := by
  constructor
  · intro h
    refine ⟨?_, ?_, ?_⟩ <;> simp [handleFileSelectW, handleConvertW, h]
  · intro h
    refine ⟨?_, ?_, ?_⟩
    · simp [handleFileInputChangeE, h]
    · simp [handleFileInputChangeE, h]
    · intro hf
      simp [handleFileInputChangeE, handleConvertE, h, hf]

/-- Claim C7 witness: a .txt selection on the pdf-to-word page issues no
network call. -/
theorem invalid_selection_no_submission_witness :
    (handleConvertW (handleFileSelectW pwWithPdf txtFile)).2 = false :=
  ((invalid_selection_no_submission pwWithPdf ⟨none, false, 0, none, none⟩
    txtFile).1 (by decide)).2.2

/-- A pdf-to-jpg session captured mid-conversion: progress 50, converting. -/
def jpgMidConversion : JpgSession := ⟨some pdfFile, true, 50, none, some "x"⟩

/-- Claim C9 (corrected), counterexample: the pdf-to-jpg page's removeFile
(the reset of that session) leaves the progress and converting flag
untouched instead of clearing them, so resetting from a mid-conversion
state does not yield the cleared idle state the claim demands. -/
theorem remove_file_keeps_progress :
    (removeFile jpgMidConversion).conversionProgress = 50 ∧
    (removeFile jpgMidConversion).isConverting = true ∧
    (removeFile jpgMidConversion).file = none := by
  exact ⟨rfl, rfl, rfl⟩

/-- Claim C9 (corrected), amended: resetForm (excel-to-pdf) and
resetConverter (pdf-to-excel) map every session state to the one cleared
idle state and are idempotent; removeFile (pdf-to-jpg) clears only the
file, result and error — preserving progress and the converting flag — and
is idempotent as well. -/
theorem reset_behaviour_by_page (s : ExSession) (s' : ExSession)
    (x : PXSession) (x' : PXSession) (j : JpgSession) :
    resetForm s = ⟨none, false, 0, none, none⟩ ∧
    resetForm s = resetForm s' ∧
    resetForm (resetForm s) = resetForm s ∧
    resetConverter x = ⟨none, false, none, 0⟩ ∧
    resetConverter x = resetConverter x' ∧
    resetConverter (resetConverter x) = resetConverter x ∧
    removeFile (removeFile j) = removeFile j ∧
    (removeFile j).file = none ∧
    (removeFile j).conversionResult = none ∧
    (removeFile j).error = none ∧
    (removeFile j).conversionProgress = j.conversionProgress ∧
    (removeFile j).isConverting = j.isConverting := by
  exact ⟨rfl, rfl, rfl, rfl, rfl, rfl, rfl, rfl, rfl, rfl, rfl, rfl⟩

/-- Claim C8 (corrected), counterexample: after one processing poll the
pdf-to-jpg loop displays progress 3 (from min(90, attempts*3)), but the
claimed shape min(cap, attempts/max_attempts*cap) is strictly below 3 for
every cap below 100, whether attempts counts the pre-increment value 0 or
the post-increment value 1 — so no sub-100 cap realizes that loop's
estimate. -/
theorem jpg_progress_not_attempts_ratio :
    (runTracker jpgPollStep jpgInitT [.ok processingResult]).progress = 3 ∧
    (∀ cap : ℚ, cap < 100 → min cap ((0 : ℚ) / 60 * cap) < 3) ∧
    (∀ cap : ℚ, cap < 100 → min cap ((1 : ℚ) / 60 * cap) < 3) := by
  refine ⟨?_, ?_, ?_⟩
  · simp [runTracker, jpgPollStep, jpgInitT, processingResult, jsTruthyStr]
    norm_num
  · intro cap hcap
    calc min cap ((0 : ℚ) / 60 * cap) ≤ (0 : ℚ) / 60 * cap := min_le_right _ _
    _ = 0 := by ring
    _ < 3 := by norm_num
  · intro cap hcap
    rcases le_or_lt cap 0 with h0 | h0
    · calc min cap ((1 : ℚ) / 60 * cap) ≤ cap := min_le_left _ _
      _ ≤ 0 := h0
      _ < 3 := by norm_num
    · calc min cap ((1 : ℚ) / 60 * cap) ≤ (1 : ℚ) / 60 * cap := min_le_right _ _
      _ < (1 : ℚ) / 60 * 100 := by nlinarith
      _ < 3 := by norm_num

/-- Claim C8 (corrected), amended: while still processing, each loop's
displayed estimate follows its own formula — excel-to-pdf and
powerpoint-to-pdf use min(90, attempts/60*90) (the claimed shape with cap
90 and the pre-increment count), pdf-to-jpg uses min(90, attempts*3) and
pdf-to-powerpoint uses min(90, attempts/60*80+10); in every loop a state
with estimate at most 90 steps to an estimate at most 90 (hence below 100)
unless the phase becomes succeeded, which happens with estimate 100 exactly
on an observed completed status. -/
theorem progress_estimate_by_loop (a : Nat) (p : ℚ) (o : PollOutcome) :
    (a + 1 < 60 →
      excelPollStep ⟨a, p, .running⟩ (.ok processingResult) =
        ⟨a + 1, min 90 ((a : ℚ) / 60 * 90), .running⟩) ∧
    (a + 1 < 60 →
      pptPollStep ⟨a, p, .running⟩ (.ok processingResult) =
        ⟨a + 1, min 90 ((a : ℚ) / 60 * 90), .running⟩) ∧
    (a + 1 < 60 →
      jpgPollStep ⟨a, p, .running⟩ (.ok processingResult) =
        ⟨a + 1, min 90 (((a : ℚ) + 1) * 3), .running⟩) ∧
    (a < 60 →
      p2pPollStep ⟨a, p, .running⟩ (.ok processingResult) =
        ⟨a + 1, min 90 ((a : ℚ) / 60 * 80 + 10), .running⟩) ∧
    (p ≤ 90 →
      (excelPollStep ⟨a, p, .running⟩ o).progress ≤ 90 ∨
      ((excelPollStep ⟨a, p, .running⟩ o).phase = .succeeded ∧
        (excelPollStep ⟨a, p, .running⟩ o).progress = 100 ∧
        ∃ r, o = .ok r ∧ r.status = some "completed" ∧ r.success = true)) ∧
    (p ≤ 90 →
      (pptPollStep ⟨a, p, .running⟩ o).progress ≤ 90 ∨
      ((pptPollStep ⟨a, p, .running⟩ o).phase = .succeeded ∧
        (pptPollStep ⟨a, p, .running⟩ o).progress = 100 ∧
        ∃ r, o = .ok r ∧ r.status = some "completed" ∧ r.success = true)) ∧
    (p ≤ 90 →
      (jpgPollStep ⟨a, p, .running⟩ o).progress ≤ 90 ∨
      ((jpgPollStep ⟨a, p, .running⟩ o).phase = .succeeded ∧
        (jpgPollStep ⟨a, p, .running⟩ o).progress = 100 ∧
        ∃ r, o = .ok r ∧ r.status = some "completed" ∧ r.success = true)) ∧
    (p ≤ 90 →
      (p2pPollStep ⟨a, p, .running⟩ o).progress ≤ 90 ∨
      ((p2pPollStep ⟨a, p, .running⟩ o).phase = .succeeded ∧
        (p2pPollStep ⟨a, p, .running⟩ o).progress = 100 ∧
        ∃ r, o = .ok r ∧ r.status = some "completed" ∧ r.success = true)) := by
  refine ⟨?_, ?_, ?_, ?_, ?_, ?_, ?_, ?_⟩
  · intro h
    simp [excelPollStep, processingResult, h]
  · intro h
    simp [pptPollStep, processingResult, h]
  · intro h
    simp [jpgPollStep, processingResult, jsTruthyStr, h]
  · intro h
    simp [p2pPollStep, processingResult, h]
  · intro hp
    cases o with
    | transportError => left; simpa [excelPollStep] using hp
    | ok r =>
      by_cases h1 : (r.status == some "completed" && r.success) = true
      · right
        have hs : r.status = some "completed" ∧ r.success = true := by
          simpa [Bool.and_eq_true] using h1
        exact ⟨by simp [excelPollStep, h1], by simp [excelPollStep, h1],
          r, rfl, hs.1, hs.2⟩
      · left
        by_cases h2 : (r.status == some "failed") = true
        · simpa [excelPollStep, h1, h2] using hp
        · by_cases h3 : (r.status == some "processing") = true
          · simp [excelPollStep, h1, h2, h3]
            split <;> exact min_le_left _ _
          · simpa [excelPollStep, h1, h2, h3] using hp
  · intro hp
    cases o with
    | transportError => left; simpa [pptPollStep] using hp
    | ok r =>
      by_cases h1 : (r.status == some "completed" && r.success) = true
      · right
        have hs : r.status = some "completed" ∧ r.success = true := by
          simpa [Bool.and_eq_true] using h1
        exact ⟨by simp [pptPollStep, h1], by simp [pptPollStep, h1],
          r, rfl, hs.1, hs.2⟩
      · left
        by_cases h2 : (r.status == some "failed") = true
        · simpa [pptPollStep, h1, h2] using hp
        · by_cases h3 : (r.status == some "processing") = true
          · simp [pptPollStep, h1, h2, h3]
            split <;> exact min_le_left _ _
          · simpa [pptPollStep, h1, h2, h3] using hp
  · intro hp
    cases o with
    | transportError =>
      left
      by_cases h : a + 1 < 60
      · simpa [jpgPollStep, h] using hp
      · norm_num [jpgPollStep, h]
    | ok r =>
      by_cases h1 : (r.status == some "completed" && r.success) = true
      · right
        have hs : r.status = some "completed" ∧ r.success = true := by
          simpa [Bool.and_eq_true] using h1
        exact ⟨by simp [jpgPollStep, h1], by simp [jpgPollStep, h1],
          r, rfl, hs.1, hs.2⟩
      · left
        by_cases h2 : (r.status == some "failed" || jsTruthyStr r.error) = true
        · norm_num [jpgPollStep, h1, h2]
        · by_cases h3 : a + 1 < 60
          · simp [jpgPollStep, h1, h2, h3]
          · norm_num [jpgPollStep, h1, h2, h3]
  · intro hp
    cases o with
    | transportError => left; simpa [p2pPollStep] using hp
    | ok r =>
      by_cases h1 : (r.status == some "completed" && r.success) = true
      · right
        have hs : r.status = some "completed" ∧ r.success = true := by
          simpa [Bool.and_eq_true] using h1
        exact ⟨by simp [p2pPollStep, h1], by simp [p2pPollStep, h1],
          r, rfl, hs.1, hs.2⟩
      · left
        by_cases h2 : (r.status == some "failed") = true
        · simpa [p2pPollStep, h1, h2] using hp
        · by_cases h3 : a < 60
          · simp [p2pPollStep, h1, h2, h3]
          · simpa [p2pPollStep, h1, h2, h3] using hp

/-- Claim C8 witness: the excel-to-pdf formula at a concrete state below
the budget, via the amended theorem. -/
theorem progress_estimate_witness :
    excelPollStep ⟨0, 30, .running⟩ (.ok processingResult) =
      ⟨1, min 90 ((0 : ℚ) / 60 * 90), .running⟩ :=
  (progress_estimate_by_loop 0 30 (.ok processingResult)).1 (by decide)
